import Mathlib

/-!
Verification of the model definitions in `few_shot/models.py`.

Modelling conventions, used throughout this file:

* A PyTorch tensor is modelled as a total real-valued index function.  A rank-4
  tensor `[batch, channel, height, width]` becomes `T4 : ℕ → ℕ → ℕ → ℕ → ℝ`;
  rank-1 and rank-2 tensors use the leading indices only (`TVec`, `TMat`).
  Shape information, which PyTorch stores on the tensor object, is threaded as
  explicit natural-number arguments to each operator, exactly the quantities
  the corresponding PyTorch kernel reads from the tensor metadata.
* Floating-point arithmetic is idealised as exact real arithmetic (`ℝ`); the
  source's "within floating-point tolerance" becomes equality on ℝ.
* Random draws (`torch.bernoulli`, uniform noise) are modelled by passing the
  underlying uniform draws explicitly as an extra tensor argument.
* Python's `dict` of named weights becomes `String → Option T4`; a `KeyError`
  and other raised exceptions become `Except String` results.
* Device/precision calls (`.cuda()`, `.double()`) and the in-place update of
  batch-norm running buffers are no-ops for the computed values and are not
  modelled.
-/

/-- Rank-4 real tensor `[batch, channel, height, width]`.  Lower-rank tensors
are embedded using the leading indices. -/
def T4 : Type := ℕ → ℕ → ℕ → ℕ → ℝ

/-- Rank-1 real tensor. -/
def TVec : Type := ℕ → ℝ

/-- Rank-2 real tensor. -/
def TMat : Type := ℕ → ℕ → ℝ

/-- Embed a rank-1 tensor into the uniform rank-4 representation. -/
def vecT4 (v : TVec) : T4 := fun a _ _ _ => v a

/-- Embed a rank-2 tensor into the uniform rank-4 representation. -/
def matT4 (m : TMat) : T4 := fun a b _ _ => m a b

/-- Read a rank-4 representation back as a rank-1 tensor. -/
def asVec (t : T4) : TVec := fun a => t a 0 0 0

/-- Read a rank-4 representation back as a rank-2 tensor. -/
def asMat (t : T4) : TMat := fun a b => t a b 0 0

/-- Output length of a 1-d convolution/pooling window:
`(H + 2*padding - kernel) / stride + 1` (PyTorch's shape rule, ℕ division). -/
def convOutDim (H kernel padding stride : ℕ) : ℕ :=
  (H + 2 * padding - kernel) / stride + 1

/-- Output length of the 2x2, stride-2 max pooling used by `conv_block`. -/
def poolOutDim (H : ℕ) : ℕ := convOutDim H 2 0 2

/-- Spatial length after one `conv_block` (3x3 conv with padding 1 keeps the
length, then 2x2/stride-2 max pooling). -/
def conv_block_outDim (H : ℕ) : ℕ := poolOutDim (convOutDim H 3 1 1)

/-- `F.relu`, elementwise on a rank-4 tensor. -/
def relu (x : T4) : T4 := fun a b c d => max (x a b c d) 0

/-- `F.max_pool2d(x, kernel_size=2, stride=2)`. -/
def max_pool2d (x : T4) : T4 := fun b c i j =>
  max (max (x b c (2 * i) (2 * j)) (x b c (2 * i) (2 * j + 1)))
    (max (x b c (2 * i + 1) (2 * j)) (x b c (2 * i + 1) (2 * j + 1)))

/-- Zero padding by 1 on both spatial dimensions: index `(i, j)` of the padded
tensor, where the unpadded tensor has spatial extent `H × W`. -/
def pad1 (H W : ℕ) (x : T4) : T4 := fun b c i j =>
  if 1 ≤ i ∧ i ≤ H ∧ 1 ≤ j ∧ j ≤ W then x b c (i - 1) (j - 1) else 0

/-- `F.conv2d(x, weight, bias, padding=1)` with a 3x3 kernel; `inC` is the
in-channel count (`weight.shape[1]`), `H × W` the spatial extent of `x`. -/
noncomputable def conv2d (x : T4) (weight : T4) (bias : TVec) (inC H W : ℕ) : T4 :=
  fun b o i j =>
    bias o +
      ∑ c ∈ Finset.range inC, ∑ p ∈ Finset.range 3, ∑ q ∈ Finset.range 3,
        weight o c p q * pad1 H W x b c (i + p) (j + q)

/-- `F.batch_norm`.  In training mode the per-channel mean and (biased)
variance of the current batch are used and any running statistics are ignored;
in eval mode the running statistics are used (PyTorch would reject running
statistics `None` in eval mode; `getD` supplies the fresh-module defaults 0/1,
a branch no theorem below relies on).  `weight`/`bias` are the optional affine
parameters: absent means no scale/shift.  `eps = 1e-5` (PyTorch default). -/
noncomputable def batch_norm (training : Bool) (running_mean running_var : Option TVec)
    (weight bias : Option TVec) (B H W : ℕ) (x : T4) : T4 :=
  match training with
  | true =>
    let N : ℝ := ((B * H * W : ℕ) : ℝ)
    let mean : TVec := fun c =>
      (∑ b ∈ Finset.range B, ∑ i ∈ Finset.range H, ∑ j ∈ Finset.range W, x b c i j) / N
    let var : TVec := fun c =>
      (∑ b ∈ Finset.range B, ∑ i ∈ Finset.range H, ∑ j ∈ Finset.range W,
        (x b c i j - mean c) ^ 2) / N
    fun b c i j =>
      (x b c i j - mean c) / Real.sqrt (var c + 1 / 100000)
        * (weight.getD (fun _ => 1)) c + (bias.getD (fun _ => 0)) c
  | false =>
    fun b c i j =>
      (x b c i j - (running_mean.getD (fun _ => 0)) c)
          / Real.sqrt ((running_var.getD (fun _ => 1)) c + 1 / 100000)
        * (weight.getD (fun _ => 1)) c + (bias.getD (fun _ => 0)) c

/-- `x.view(x.size(0), -1)` on a `[B, C, H, W]` tensor: row-major flattening of
the trailing three dimensions. -/
def flatten (_C H W : ℕ) (x : T4) : TMat := fun b n =>
  x b (n / (H * W)) (n % (H * W) / W) (n % W)

/-- `F.linear(x, weight, bias) = x @ weight.T + bias` on a rank-2 input;
`inF` is the shared inner dimension (`weight.shape[1]`). -/
noncomputable def linear (x : TMat) (weight : TMat) (bias : TVec) (inF : ℕ) : TMat :=
  fun b k => (∑ i ∈ Finset.range inF, x b i * weight k i) + bias k

/-- `nn.Linear` applied to a rank-4 input acts on the last dimension only;
`inF` is the layer's `in_features`. -/
noncomputable def linearLast (x : T4) (weight : TMat) (bias : TVec) (inF : ℕ) : T4 :=
  fun a b c k => (∑ i ∈ Finset.range inF, x a b c i * weight k i) + bias k

/-- Parameters and buffers of one `conv_block` module:
`nn.Conv2d(inC, 64, 3, padding=1)`, `nn.BatchNorm2d(64)` (affine, with running
buffers), followed by parameter-free `nn.ReLU()` and `nn.MaxPool2d(2, 2)`. -/
structure ConvBlock where
  weight : T4
  bias : TVec
  bn_weight : TVec
  bn_bias : TVec
  bn_running_mean : TVec
  bn_running_var : TVec

/-- Forward pass of the module returned by `conv_block`: 3x3 convolution
(padding 1), batch norm (mode given by the owning module's `training` flag),
ReLU, 2x2 max pooling. -/
noncomputable def conv_block (inC B H W : ℕ) (training : Bool) (p : ConvBlock) (x : T4) : T4 :=
  max_pool2d (relu (batch_norm training (some p.bn_running_mean) (some p.bn_running_var)
    (some p.bn_weight) (some p.bn_bias) B H W (conv2d x p.weight p.bias inC H W)))

/-- `functional_conv_block(x, weights, biases, bn_weights, bn_biases)`:
`F.conv2d(x, weights, biases, padding=1)`, then
`F.batch_norm(..., running_mean=None, running_var=None, training=True)`,
then `F.relu`, then `F.max_pool2d(kernel_size=2, stride=2)`. -/
noncomputable def functional_conv_block (x : T4) (weights : T4) (biases : TVec)
    (bn_weights bn_biases : Option TVec) (inC B H W : ℕ) : T4 :=
  max_pool2d (relu (batch_norm true none none bn_weights bn_biases B H W
    (conv2d x weights biases inC H W)))

/-- The `FewShotClassifier` module: `conv1 = conv_block(num_input_channels, 64)`,
`conv2/conv3/conv4 = conv_block(64, 64)`, `logits = nn.Linear(final_layer_size,
k_way)`, plus the `nn.Module` `training` flag. -/
structure FewShotClassifier where
  num_input_channels : ℕ
  k_way : ℕ
  final_layer_size : ℕ
  conv1 : ConvBlock
  conv2 : ConvBlock
  conv3 : ConvBlock
  conv4 : ConvBlock
  logits_weight : TMat
  logits_bias : TVec
  training : Bool

/-- The same classifier with its `training` flag set (`.train()` / `.eval()`). -/
def FewShotClassifier.setTraining (m : FewShotClassifier) (t : Bool) : FewShotClassifier :=
  { m with training := t }

/-- `FewShotClassifier.forward`: four conv blocks, flatten, linear head.
`B, H, W` are the batch size and spatial extent of `x` (channel count is the
module's `num_input_channels`). -/
noncomputable def FewShotClassifier.forward (m : FewShotClassifier) (B H W : ℕ) (x : T4) : TMat :=
  let x1 := conv_block m.num_input_channels B H W m.training m.conv1 x
  let h1 := conv_block_outDim H
  let w1 := conv_block_outDim W
  let x2 := conv_block 64 B h1 w1 m.training m.conv2 x1
  let h2 := conv_block_outDim h1
  let w2 := conv_block_outDim w1
  let x3 := conv_block 64 B h2 w2 m.training m.conv3 x2
  let h3 := conv_block_outDim h2
  let w3 := conv_block_outDim w2
  let x4 := conv_block 64 B h3 w3 m.training m.conv4 x3
  let h4 := conv_block_outDim h3
  let w4 := conv_block_outDim w3
  linear (flatten 64 h4 w4 x4) m.logits_weight m.logits_bias m.final_layer_size

/-- Key of a `FewShotClassifier` conv-block parameter, `'conv' + str(block) +
suffix` with suffix one of `.0.weight`, `.0.bias`, `.1.weight`, `.1.bias`. -/
def convKey (block : ℕ) (suffix : String) : String :=
  "conv" ++ Nat.repr block ++ suffix

/-- The classifier's own current parameters repackaged as a named weight
mapping, keyed as produced by `named_parameters()` (`conv{i}.0.*` for the
convolution, `conv{i}.1.*` for the batch-norm affine parameters, `logits.*`
for the head; running-mean/var are buffers, not parameters, and do not
appear). -/
def FewShotClassifier.namedParams (m : FewShotClassifier) : String → Option T4 := fun s =>
  if s = convKey 1 ".0.weight" then some m.conv1.weight
  else if s = convKey 1 ".0.bias" then some (vecT4 m.conv1.bias)
  else if s = convKey 1 ".1.weight" then some (vecT4 m.conv1.bn_weight)
  else if s = convKey 1 ".1.bias" then some (vecT4 m.conv1.bn_bias)
  else if s = convKey 2 ".0.weight" then some m.conv2.weight
  else if s = convKey 2 ".0.bias" then some (vecT4 m.conv2.bias)
  else if s = convKey 2 ".1.weight" then some (vecT4 m.conv2.bn_weight)
  else if s = convKey 2 ".1.bias" then some (vecT4 m.conv2.bn_bias)
  else if s = convKey 3 ".0.weight" then some m.conv3.weight
  else if s = convKey 3 ".0.bias" then some (vecT4 m.conv3.bias)
  else if s = convKey 3 ".1.weight" then some (vecT4 m.conv3.bn_weight)
  else if s = convKey 3 ".1.bias" then some (vecT4 m.conv3.bn_bias)
  else if s = convKey 4 ".0.weight" then some m.conv4.weight
  else if s = convKey 4 ".0.bias" then some (vecT4 m.conv4.bias)
  else if s = convKey 4 ".1.weight" then some (vecT4 m.conv4.bn_weight)
  else if s = convKey 4 ".1.bias" then some (vecT4 m.conv4.bn_bias)
  else if s = "logits.weight" then some (matT4 m.logits_weight)
  else if s = "logits.bias" then some (vecT4 m.logits_bias)
  else none

/-- A required `weights[key]` lookup: Python raises `KeyError(key)` when the
key is absent. -/
def req (weights : String → Option T4) (key : String) : Except String T4 :=
  match weights key with
  | some t => Except.ok t
  | none => Except.error key

/-- The keys `FewShotClassifier.functional_forward` accesses with `weights[...]`
(a missing one raises `KeyError`); the `conv{i}.1.*` keys are read with
`weights.get(...)` instead and may be absent. -/
def functionalForwardRequiredKeys : List String :=
  [convKey 1 ".0.weight", convKey 1 ".0.bias",
   convKey 2 ".0.weight", convKey 2 ".0.bias",
   convKey 3 ".0.weight", convKey 3 ".0.bias",
   convKey 4 ".0.weight", convKey 4 ".0.bias",
   "logits.weight", "logits.bias"]

/-- `FewShotClassifier.functional_forward(x, weights)`: for each block in
`[1, 2, 3, 4]` apply `functional_conv_block` with `weights['conv{b}.0.weight']`,
`weights['conv{b}.0.bias']` (required) and `weights.get('conv{b}.1.weight')`,
`weights.get('conv{b}.1.bias')` (optional), then flatten and apply `F.linear`
with `weights['logits.weight']`, `weights['logits.bias']`.  `B, C0, H, W` are
the shape of `x`; the loop state threads the tensor together with its current
channel count and spatial extent. -/
noncomputable def FewShotClassifier.functional_forward (weights : String → Option T4)
    (B C0 H W : ℕ) (x : T4) : Except String TMat := do
  let s ← List.foldlM (fun (st : T4 × ℕ × ℕ × ℕ) (block : ℕ) => do
      let w ← req weights (convKey block ".0.weight")
      let bi ← req weights (convKey block ".0.bias")
      let (xc, C, Hc, Wc) := st
      pure (functional_conv_block xc w (asVec bi)
            (Option.map asVec (weights (convKey block ".1.weight")))
            (Option.map asVec (weights (convKey block ".1.bias"))) C B Hc Wc,
          64, conv_block_outDim Hc, conv_block_outDim Wc))
    (x, C0, H, W) [1, 2, 3, 4]
  let lw ← req weights "logits.weight"
  let lb ← req weights "logits.bias"
  let (x4, _, H4, W4) := s
  pure (linear (flatten 64 H4 W4 x4) (asMat lw) (asVec lb) (64 * (H4 * W4)))

/-- Channel/height/width shape after one `conv_block` (out-channels 64). -/
def conv_block_outShape (s : ℕ × ℕ × ℕ) : ℕ × ℕ × ℕ :=
  (64, conv_block_outDim s.2.1, conv_block_outDim s.2.2)

/-- Width of one flattened example, `C * H * W`. -/
def flatWidth (s : ℕ × ℕ × ℕ) : ℕ := s.1 * s.2.1 * s.2.2

/-- Per-example flattened output width of `get_few_shot_encoder` (four
`conv_block`s then `Flatten`), as a function of the input `(C, H, W)` shape. -/
def get_few_shot_encoder_flatWidth (s : ℕ × ℕ × ℕ) : ℕ :=
  flatWidth (conv_block_outShape (conv_block_outShape (conv_block_outShape
    (conv_block_outShape s))))

/-- `nn.Hardtanh()`: clamp to `[-1, 1]`. -/
noncomputable def hardtanh (x : ℝ) : ℝ := min 1 (max (-1) x)

/-- `Hardsigmoid.forward`: `(Hardtanh(x) + 1) / 2`, a piecewise-linear squash
onto `[0, 1]`. -/
noncomputable def Hardsigmoid.forward (x : ℝ) : ℝ := (hardtanh x + 1) / 2

/-- `torch.round` on a scalar: nearest integer, ties to even (IEEE
round-half-to-even, the rule `torch.round` documents). -/
noncomputable def torch_round (x : ℝ) : ℝ :=
  if x - Int.floor x < 1 / 2 then ((Int.floor x : ℤ) : ℝ)
  else if 1 / 2 < x - Int.floor x then ((Int.floor x + 1 : ℤ) : ℝ)
  else if Even (Int.floor x) then ((Int.floor x : ℤ) : ℝ) else ((Int.floor x + 1 : ℤ) : ℝ)

/-- `torch.bernoulli` on a scalar probability `p`, driven by an explicit
uniform draw `u` from `[0, 1)`: the sample is 1 when `u < p`, else 0. -/
noncomputable def torch_bernoulli (u p : ℝ) : ℝ := if u < p then 1 else 0

/-- A `torch.autograd.Function` subclass used as a straight-through estimator:
the registered forward transform together with the registered backward
(gradient) transform. -/
structure STFunction where
  fwd : T4 → T4
  bwd : T4 → T4

/-- `RoundFunctionST`: forward is `torch.round(input)` elementwise; backward
returns `grad_output` unchanged. -/
noncomputable def RoundFunctionST : STFunction where
  fwd := fun input a b c d => torch_round (input a b c d)
  bwd := fun grad_output => grad_output

/-- `BernoulliFunctionST`: forward is `torch.bernoulli(input)` elementwise
(here driven by the uniform draws `u`); backward returns `grad_output`
unchanged. -/
noncomputable def BernoulliFunctionST (u : T4) : STFunction where
  fwd := fun input a b c d => torch_bernoulli (u a b c d) (input a b c d)
  bwd := fun grad_output => grad_output

/-- EstimatorPolicy policy selected at construction (`assert estimator in
['ST', 'REINFORCE']`). -/
inductive EstimatorPolicy where
  | ST : EstimatorPolicy
  | REINFORCE : EstimatorPolicy

/-- Argument passed to a binary-activation module's `forward`.  The source
unpacks it as `x, slope = input`: at one call site it is a `[tensor, float]`
pair, at another a single tensor whose index-0 and index-1 slices become `x`
and `slope`. -/
inductive BinActInput where
  | pair : T4 → ℝ → BinActInput
  | single : T4 → BinActInput

/-- The product `slope * x` after the `x, slope = input` unpacking: for a
`[tensor, float]` argument a scalar scaling, for a single-tensor argument the
elementwise product of its index-1 slice (slope) with its index-0 slice (x),
a rank-3 result kept in the leading indices. -/
noncomputable def binActProd (input : BinActInput) : T4 :=
  match input with
  | BinActInput.pair x slope => fun a b c d => slope * x a b c d
  | BinActInput.single t => fun a b c _ => t 1 a b c * t 0 a b c

/-- Modelled from the spec: the external `distributions.Round` REINFORCE
wrapper (module `distributions` is not part of the sources).  Per section 4.6,
its forward "still \[has\] deterministic round behavior via a distribution
wrapper", so `.sample()` rounds elementwise. -/
noncomputable def RoundREINFORCE_sample (t : T4) : T4 :=
  fun a b c d => torch_round (t a b c d)

/-- Modelled from the spec: the external `distributions.Bernoulli` REINFORCE
wrapper (module `distributions` is not part of the sources).  Per sections 4.6
and 9, it is a distribution with a `.sample()` capability drawing Bernoulli
values, modelled by the same uniform-draw scheme as `torch.bernoulli`. -/
noncomputable def BernoulliREINFORCE_sample (u : T4) (t : T4) : T4 :=
  fun a b c d => torch_bernoulli (u a b c d) (t a b c d)

/-- `DeterministicBinaryActivation.forward`: unpack `x, slope = input`, squash
with `Hardsigmoid(slope * x)`, then binarize with `RoundST` (straight-through)
or with `RoundREINFORCE(...).sample()` (reinforce). -/
noncomputable def DeterministicBinaryActivation.forward (estimator : EstimatorPolicy)
    (input : BinActInput) : T4 :=
  let x : T4 := fun a b c d => Hardsigmoid.forward (binActProd input a b c d)
  match estimator with
  | EstimatorPolicy.ST => RoundFunctionST.fwd x
  | EstimatorPolicy.REINFORCE => RoundREINFORCE_sample x

/-- `StochasticBinaryActivation.forward`: unpack `x, slope = input`, squash
with `Hardsigmoid(slope * x)` into probabilities, then sample with
`BernoulliST` (straight-through) or `BernoulliREINFORCE(...).sample()`
(reinforce); `u` carries the uniform draws. -/
noncomputable def StochasticBinaryActivation.forward (estimator : EstimatorPolicy) (u : T4)
    (input : BinActInput) : T4 :=
  let probs : T4 := fun a b c d => Hardsigmoid.forward (binActProd input a b c d)
  match estimator with
  | EstimatorPolicy.ST => (BernoulliFunctionST u).fwd probs
  | EstimatorPolicy.REINFORCE => BernoulliREINFORCE_sample u probs

/-- Dense-layer input width hard-coded by `SemanticBinaryClassifier.__init__`:
`n = 12544`, overwritten to 3136 when `n_conv_layers >= 2`, to 576 when
`>= 3`, to 64 when `>= 4` (sequential overwrites; the nested conditional
below keeps the last applicable value).  `n_conv_layers` is a Python `int`,
modelled as ℤ. -/
def SemanticBinaryClassifier.dense_in_features (n_conv_layers : ℤ) : ℕ :=
  if 4 ≤ n_conv_layers then 64
  else if 3 ≤ n_conv_layers then 576
  else if 2 ≤ n_conv_layers then 3136
  else 12544

/-- Whether `SemanticBinaryClassifier.__init__` constructs `self.conv2`. -/
def SemanticBinaryClassifier.buildsConv2 (n_conv_layers : ℤ) : Bool := 2 ≤ n_conv_layers

/-- Whether `SemanticBinaryClassifier.__init__` constructs `self.conv3`. -/
def SemanticBinaryClassifier.buildsConv3 (n_conv_layers : ℤ) : Bool := 3 ≤ n_conv_layers

/-- Whether `SemanticBinaryClassifier.__init__` constructs `self.conv4`. -/
def SemanticBinaryClassifier.buildsConv4 (n_conv_layers : ℤ) : Bool := 4 ≤ n_conv_layers

/-- The `SemanticBinaryClassifier` module.  `slope` is set to `1.0` by the
constructor; `dense_layer_before_bin` is `size_dense_layer_before_binary is
not None`, here `Option.isSome`.  The unconditional `conv1` and the
conditionally constructed `conv2..conv4` all carry parameters; `forward`
only touches the ones its conditions select. -/
structure SemanticBinaryClassifier where
  num_input_channels : ℕ
  k_way : ℕ
  final_layer_size : ℕ
  size_dense_layer_before_binary : Option ℕ
  size_binary_layer : ℕ
  stochastic : Bool
  n_conv_layers : ℤ
  conv1 : ConvBlock
  conv2 : ConvBlock
  conv3 : ConvBlock
  conv4 : ConvBlock
  dense1_weight : TMat
  dense1_bias : TVec
  dense2_weight : TMat
  dense2_bias : TVec
  logits_weight : TMat
  logits_bias : TVec
  training : Bool

/-- `self.slope = 1.0`. -/
def SemanticBinaryClassifier.slope : ℝ := 1

/-- The same classifier with a different `n_conv_layers` (all parameters
unchanged). -/
def SemanticBinaryClassifier.setNConv (m : SemanticBinaryClassifier) (v : ℤ) :
    SemanticBinaryClassifier :=
  { m with n_conv_layers := v }

/-- `SemanticBinaryClassifier.forward`: `conv1`, then `conv2`/`conv3`/`conv4`
guarded by `n_conv_layers >= 2/3/4`, flatten, optional `dense1`, `dense2`,
binary activation on `[x, self.slope]`, and return `(logits(x), x)`.  The
loop state pairs each intermediate tensor with its spatial extent; `u` is the
uniform draw tensor for the stochastic binarizer. -/
noncomputable def SemanticBinaryClassifier.forward (m : SemanticBinaryClassifier)
    (B H W : ℕ) (u : T4) (x : T4) : TMat × T4 :=
  let s1 : T4 × ℕ × ℕ :=
    (conv_block m.num_input_channels B H W m.training m.conv1 x,
      conv_block_outDim H, conv_block_outDim W)
  let s2 : T4 × ℕ × ℕ :=
    if 2 ≤ m.n_conv_layers then
      (conv_block 64 B s1.2.1 s1.2.2 m.training m.conv2 s1.1,
        conv_block_outDim s1.2.1, conv_block_outDim s1.2.2)
    else s1
  let s3 : T4 × ℕ × ℕ :=
    if 3 ≤ m.n_conv_layers then
      (conv_block 64 B s2.2.1 s2.2.2 m.training m.conv3 s2.1,
        conv_block_outDim s2.2.1, conv_block_outDim s2.2.2)
    else s2
  let s4 : T4 × ℕ × ℕ :=
    if 4 ≤ m.n_conv_layers then
      (conv_block 64 B s3.2.1 s3.2.2 m.training m.conv4 s3.1,
        conv_block_outDim s3.2.1, conv_block_outDim s3.2.2)
    else s3
  let xf := flatten 64 s4.2.1 s4.2.2 s4.1
  let xd : TMat :=
    match m.size_dense_layer_before_binary with
    | some sz =>
      linear (linear xf m.dense1_weight m.dense1_bias
          (SemanticBinaryClassifier.dense_in_features m.n_conv_layers))
        m.dense2_weight m.dense2_bias sz
    | none =>
      linear xf m.dense2_weight m.dense2_bias
        (SemanticBinaryClassifier.dense_in_features m.n_conv_layers)
  let xb : T4 :=
    if m.stochastic then
      StochasticBinaryActivation.forward EstimatorPolicy.ST u
        (BinActInput.pair (matT4 xd) SemanticBinaryClassifier.slope)
    else
      DeterministicBinaryActivation.forward EstimatorPolicy.ST
        (BinActInput.pair (matT4 xd) SemanticBinaryClassifier.slope)
  (linear (asMat xb) m.logits_weight m.logits_bias m.size_binary_layer, xb)

/-- `F.conv_transpose2d` with a 3x3 kernel and the given padding (weight
layout `[inC, outC, 3, 3]`); `H × W` is the spatial extent of `x`. -/
noncomputable def conv_transpose2d (x : T4) (weight : T4) (bias : TVec)
    (inC H W padding : ℕ) : T4 :=
  fun b o i j =>
    bias o +
      ∑ c ∈ Finset.range inC, ∑ p ∈ Finset.range 3, ∑ q ∈ Finset.range 3,
        weight c o p q *
          (if p ≤ i + padding ∧ i + padding - p < H ∧ q ≤ j + padding ∧ j + padding - q < W
            then x b c (i + padding - p) (j + padding - q) else 0)

/-- Forward pass of the module returned by `deconv_block`: 3x3 transposed
convolution (padding 1, which preserves the spatial extent), batch norm,
ReLU. -/
noncomputable def deconv_block (inC B H W : ℕ) (training : Bool) (p : ConvBlock) (x : T4) : T4 :=
  relu (batch_norm training (some p.bn_running_mean) (some p.bn_running_var)
    (some p.bn_weight) (some p.bn_bias) B H W (conv_transpose2d x p.weight p.bias inC H W 1))

/-- `torch.tanh`, elementwise. -/
noncomputable def tanh4 (x : T4) : T4 := fun a b c d => Real.tanh (x a b c d)

/-- `torch.cat((a, b))` along dimension 0, where `a` has first-dimension
size `n1`. -/
noncomputable def cat4 (n1 : ℕ) (a b : T4) : T4 := fun i c h w =>
  if i < n1 then a i c h w else b (i - n1) c h w

/-- The `SemanticBinaryAutoEncoder` module: two conv blocks, the parallel
`dense_bin = nn.Linear(3136, size_binary_layer)` and `dense_cont =
nn.Linear(3136, size_continue_layer)`, two deconv blocks, a final
`nn.ConvTranspose2d(64, 64, 3)`, and the binary activation selected by
`stochastic` (estimator `'ST'` in both cases). -/
structure SemanticBinaryAutoEncoder where
  num_input_channels : ℕ
  size_binary_layer : ℕ
  size_continue_layer : ℕ
  stochastic : Bool
  conv1 : ConvBlock
  conv2 : ConvBlock
  dense_bin_weight : TMat
  dense_bin_bias : TVec
  dense_cont_weight : TMat
  dense_cont_bias : TVec
  deconv1 : ConvBlock
  deconv2 : ConvBlock
  deconv3_weight : T4
  deconv3_bias : TVec
  training : Bool

/-- `SemanticBinaryAutoEncoder.encoder`: `conv1`, `conv2`, then in parallel
`x1 = dense_bin(x)` / `x2 = dense_cont(x)` (linear layers with
`in_features = 3136` acting on the last dimension), then `x1 =
self.binary_act(x1)` (a single-tensor argument, unpacked by the activation as
`x, slope = input`) and `x2 = F.relu(x2)`; returns `(x1, x2)`.  `u` carries
the uniform draws of the stochastic binarizer. -/
noncomputable def SemanticBinaryAutoEncoder.encoder (m : SemanticBinaryAutoEncoder)
    (B H W : ℕ) (u : T4) (x : T4) : T4 × T4 :=
  let xa := conv_block m.num_input_channels B H W m.training m.conv1 x
  let xb := conv_block 64 B (conv_block_outDim H) (conv_block_outDim W) m.training m.conv2 xa
  let x1 := linearLast xb m.dense_bin_weight m.dense_bin_bias 3136
  let x2 := linearLast xb m.dense_cont_weight m.dense_cont_bias 3136
  let x1b :=
    if m.stochastic then
      StochasticBinaryActivation.forward EstimatorPolicy.ST u (BinActInput.single x1)
    else
      DeterministicBinaryActivation.forward EstimatorPolicy.ST (BinActInput.single x1)
  (x1b, relu x2)

/-- `SemanticBinaryAutoEncoder.decoder`: `deconv1`, `deconv2`, then
`F.tanh(self.deconv3(x))` (transposed convolution without padding). -/
noncomputable def SemanticBinaryAutoEncoder.decoder (m : SemanticBinaryAutoEncoder)
    (B H W : ℕ) (latent_space : T4) : T4 :=
  let z1 := deconv_block 64 B H W m.training m.deconv1 latent_space
  let z2 := deconv_block 64 B H W m.training m.deconv2 z1
  tanh4 (conv_transpose2d z2 m.deconv3_weight m.deconv3_bias 64 H W 0)

/-- `SemanticBinaryAutoEncoder.binary_space_decoder(binary_latent_space,
n_noise)`: draw `noise ~ Uniform(0, 1)` of shape
`(n_noise, size_continue_layer)` (the draws are supplied in `unoise`; indices
outside the sampled shape are zero), concatenate it after the binary latent
code along dimension 0, and decode.  `nb` is the first-dimension size of
`binary_latent_space`, `H × W` the spatial extent handed to the decoder. -/
noncomputable def SemanticBinaryAutoEncoder.binary_space_decoder
    (m : SemanticBinaryAutoEncoder) (nb H W : ℕ) (binary_latent_space : T4)
    (n_noise : ℕ) (unoise : T4) : T4 :=
  let noise : T4 := fun i j _ _ =>
    if i < n_noise ∧ j < m.size_continue_layer then unoise i j 0 0 else 0
  SemanticBinaryAutoEncoder.decoder m (nb + n_noise) H W (cat4 nb binary_latent_space noise)

/-- Number of parameters of `binary_space_decoder` without a default value:
`binary_latent_space` and `n_noise`. -/
def SemanticBinaryAutoEncoder.binary_space_decoder_required_params : ℕ := 2

/-- Number of positional arguments the call `self.binary_space_decoder(bina)`
inside `SemanticBinaryAutoEncoder.forward` supplies. -/
def SemanticBinaryAutoEncoder.binary_space_decoder_forward_call_args : ℕ := 1

/-- The `TypeError` Python raises for that call, before the method body runs:
the one required positional argument `n_noise` is missing. -/
def SemanticBinaryAutoEncoder.missing_n_noise : Except String T4 :=
  Except.error "TypeError: binary_space_decoder() missing 1 required positional argument: n_noise"

/-- `SemanticBinaryAutoEncoder.forward`: encode, decode `torch.cat((bina,
cont))` into `x1`, then evaluate `x2 = self.binary_space_decoder(bina)` — a
call that supplies one positional argument where two parameters have no
default, so it raises `TypeError` (modelled as the `missing_n_noise` error)
rather than producing a tensor; `(x1, x2)` is never returned. -/
noncomputable def SemanticBinaryAutoEncoder.forward (m : SemanticBinaryAutoEncoder)
    (B H W : ℕ) (u : T4) (x : T4) : Except String (T4 × T4) := do
  let bc := SemanticBinaryAutoEncoder.encoder m B H W u x
  let h2 := conv_block_outDim (conv_block_outDim H)
  let w2 := conv_block_outDim (conv_block_outDim W)
  let x1 := SemanticBinaryAutoEncoder.decoder m (B + B) h2 w2 (cat4 B bc.1 bc.2)
  let x2 ← SemanticBinaryAutoEncoder.missing_n_noise
  pure (x1, x2)

/-- Matrix of embeddings: one row per example, `d` the embedding dimension. -/
def MatF (q d : ℕ) : Type := Fin q → Fin d → ℝ

/-- Logistic sigmoid, the gate activation of `nn.LSTMCell`. -/
noncomputable def sigmoid (z : ℝ) : ℝ := 1 / (1 + Real.exp (-z))

/-- Parameters of `nn.LSTMCell(input_size=d, hidden_size=d)`: the four
input/forget/cell/output chunks of `weight_ih`, `weight_hh`, `bias_ih`,
`bias_hh`. -/
structure LSTMCellParams (d : ℕ) where
  w_ii : Fin d → Fin d → ℝ
  w_if : Fin d → Fin d → ℝ
  w_ig : Fin d → Fin d → ℝ
  w_io : Fin d → Fin d → ℝ
  w_hi : Fin d → Fin d → ℝ
  w_hf : Fin d → Fin d → ℝ
  w_hg : Fin d → Fin d → ℝ
  w_ho : Fin d → Fin d → ℝ
  b_ii : Fin d → ℝ
  b_if : Fin d → ℝ
  b_ig : Fin d → ℝ
  b_io : Fin d → ℝ
  b_hi : Fin d → ℝ
  b_hf : Fin d → ℝ
  b_hg : Fin d → ℝ
  b_ho : Fin d → ℝ

/-- One `nn.LSTMCell` update on a batch of `q` rows: gates
`i = sigmoid(W_ii x + b_ii + W_hi h + b_hi)` (and `f`, `o` alike),
`g = tanh(W_ig x + b_ig + W_hg h + b_hg)`, then `c' = f*c + i*g` and
`h' = o * tanh(c')`; returns `(h', c')`. -/
noncomputable def LSTMCell_forward {q d : ℕ} (p : LSTMCellParams d)
    (input h0 c0 : MatF q d) : MatF q d × MatF q d :=
  let pre := fun (wi wh : Fin d → Fin d → ℝ) (bi bh : Fin d → ℝ) (a : Fin q) (j : Fin d) =>
    (∑ t, wi j t * input a t) + bi j + (∑ t, wh j t * h0 a t) + bh j
  let i := fun a j => sigmoid (pre p.w_ii p.w_hi p.b_ii p.b_hi a j)
  let f := fun a j => sigmoid (pre p.w_if p.w_hf p.b_if p.b_hf a j)
  let g := fun a j => Real.tanh (pre p.w_ig p.w_hg p.b_ig p.b_hg a j)
  let o := fun a j => sigmoid (pre p.w_io p.w_ho p.b_io p.b_ho a j)
  let c1 := fun a j => f a j * c0 a j + i a j * g a j
  let h1 := fun a j => o a j * Real.tanh (c1 a j)
  (h1, c1)

/-- `torch.mm(h, support.t())`: unnormalised attention scores, the dot product
of each working embedding with every support embedding. -/
noncomputable def mmT {q n ds : ℕ} (h : MatF q ds) (support : MatF n ds) : MatF q n :=
  fun i t => ∑ j, h i j * support t j

/-- `torch.mm(attentions, support)`: attention-weighted sum of the support
embeddings. -/
noncomputable def mmF {q n d : ℕ} (attentions : MatF q n) (support : MatF n d) : MatF q d :=
  fun i j => ∑ t, attentions i t * support t j

/-- `softmax(dim=1)` of a `[q, n]` score matrix: each row is normalised over
the support dimension. -/
noncomputable def softmaxRow {q n : ℕ} (a : MatF q n) : MatF q n :=
  fun i t => Real.exp (a i t) / ∑ r, Real.exp (a i r)

/-- The `AttentionLSTM` module: an `nn.LSTMCell(size, size)` plus the number
of unrolling steps. -/
structure AttentionLSTM (d : ℕ) where
  unrolling_steps : ℕ
  lstm_cell : LSTMCellParams d

/-- One iteration of the `for k in range(self.unrolling_steps)` loop of
`AttentionLSTM.forward`: `h = h_hat + queries`; `attentions =
softmax(mm(h, support.t()), dim=1)`; `readout = mm(attentions, support)`;
`h_hat, c = lstm_cell(queries, (h + readout, c))`. -/
noncomputable def attention_step {n q d : ℕ} (m : AttentionLSTM d) (support : MatF n d)
    (queries : MatF q d) (hc : MatF q d × MatF q d) : MatF q d × MatF q d :=
  let h : MatF q d := fun i j => hc.1 i j + queries i j
  let attentions := softmaxRow (mmT h support)
  let readout := mmF attentions support
  LSTMCell_forward m.lstm_cell queries (fun i j => h i j + readout i j) hc.2

/-- `AttentionLSTM.forward(support, queries)`: first the explicit check that
the two last-dimension sizes agree (`raise ValueError(...)` otherwise), then
`h_hat` and `c` are initialised to zero, the attention step is unrolled
`unrolling_steps` times, and `h_hat + queries` is returned.  The query set is
typed with the module's embedding size `d`; `ds` is the support set's
last-dimension size. -/
noncomputable def AttentionLSTM.forward {n ds q d : ℕ} (m : AttentionLSTM d)
    (support : MatF n ds) (queries : MatF q d) : Except String (MatF q d) :=
  if h : ds = d then
    let support' : MatF n d := fun i j => support i (Fin.cast h.symm j)
    let zero : MatF q d := fun _ _ => 0
    let final := (attention_step m support' queries)^[m.unrolling_steps] (zero, zero)
    Except.ok (fun i j => final.1 i j + queries i j)
  else
    Except.error "Support and query set have different embedding dimension!"

/-- Attention weights exactly as claim C2 words them: the score of query row
`i` against support embedding `t` is the dot product of the working embedding
with that support embedding, and the weights are the softmax of the scores
over the support dimension. -/
noncomputable def specAttentionWeights {n q d : ℕ} (support : MatF n d) (h : MatF q d) :
    MatF q n :=
  fun i t => Real.exp (∑ j, h i j * support t j) / ∑ r, Real.exp (∑ j, h i j * support r j)

/-- One refinement step exactly as claim C2 words it: `h = h_hat + queries`;
attention weights as in `specAttentionWeights`; readout the attention-weighted
sum of support embeddings; one LSTM-cell update with `queries` as input and
`(h + readout, c)` as incoming state. -/
noncomputable def specAttentionStep {n q d : ℕ} (m : AttentionLSTM d) (support : MatF n d)
    (queries : MatF q d) (h_hat c : MatF q d) : MatF q d × MatF q d :=
  let h : MatF q d := fun i j => h_hat i j + queries i j
  let w := specAttentionWeights support h
  let readout : MatF q d := fun i j => ∑ t, w i t * support t j
  LSTMCell_forward m.lstm_cell queries (fun i j => h i j + readout i j) c

/-- The value claim C2 says `AttentionLSTM.forward` computes: iterate
`specAttentionStep` from zero `h_hat` and `c`, then return `h_hat + queries`
(a `[q, d]` matrix, the shape of `queries`). -/
noncomputable def specAttentionResult {n q d : ℕ} (m : AttentionLSTM d) (support : MatF n d)
    (queries : MatF q d) : MatF q d :=
  let final := (fun hc : MatF q d × MatF q d => specAttentionStep m support queries hc.1 hc.2)^[m.unrolling_steps]
    (fun _ _ => 0, fun _ _ => 0)
  fun i j => final.1 i j + queries i j

/-- The all-zero rank-4 tensor (used to instantiate theorems at a concrete
input). -/
def zeroT4 : T4 := fun _ _ _ _ => 0

/-- The all-zero rank-1 tensor. -/
def zeroVec : TVec := fun _ => 0

/-- The all-zero rank-2 tensor. -/
def zeroMat : TMat := fun _ _ => 0

/-- A conv block whose parameters and buffers are all zero. -/
def zeroConvBlock : ConvBlock :=
  { weight := zeroT4, bias := zeroVec, bn_weight := zeroVec, bn_bias := zeroVec,
    bn_running_mean := zeroVec, bn_running_var := zeroVec }

/-- A concrete `FewShotClassifier(num_input_channels=1, k_way=1,
final_layer_size=64)` with all-zero parameters, freshly constructed
(`training = true`). -/
def witnessFSC : FewShotClassifier :=
  { num_input_channels := 1, k_way := 1, final_layer_size := 64,
    conv1 := zeroConvBlock, conv2 := zeroConvBlock, conv3 := zeroConvBlock,
    conv4 := zeroConvBlock, logits_weight := zeroMat, logits_bias := zeroVec,
    training := true }

/-- All-zero LSTM-cell parameters at embedding size 1. -/
def zeroLSTMCellParams : LSTMCellParams 1 :=
  { w_ii := fun _ _ => 0, w_if := fun _ _ => 0, w_ig := fun _ _ => 0, w_io := fun _ _ => 0,
    w_hi := fun _ _ => 0, w_hf := fun _ _ => 0, w_hg := fun _ _ => 0, w_ho := fun _ _ => 0,
    b_ii := fun _ => 0, b_if := fun _ => 0, b_ig := fun _ => 0, b_io := fun _ => 0,
    b_hi := fun _ => 0, b_hf := fun _ => 0, b_hg := fun _ => 0, b_ho := fun _ => 0 }

/-- A concrete `AttentionLSTM(size=1, unrolling_steps=1)` with zero
parameters. -/
def witnessALSTM : AttentionLSTM 1 :=
  { unrolling_steps := 1, lstm_cell := zeroLSTMCellParams }

/-- The all-zero embedding matrix. -/
def zeroMatF (q d : ℕ) : MatF q d := fun _ _ => 0

/-- A concrete `SemanticBinaryClassifier` with all-zero parameters and
`n_conv_layers = 5` (out of the documented `[1-4]` range from above). -/
def witnessSBC5 : SemanticBinaryClassifier :=
  { num_input_channels := 1, k_way := 1, final_layer_size := 64,
    size_dense_layer_before_binary := none, size_binary_layer := 10,
    stochastic := true, n_conv_layers := 5,
    conv1 := zeroConvBlock, conv2 := zeroConvBlock, conv3 := zeroConvBlock,
    conv4 := zeroConvBlock,
    dense1_weight := zeroMat, dense1_bias := zeroVec,
    dense2_weight := zeroMat, dense2_bias := zeroVec,
    logits_weight := zeroMat, logits_bias := zeroVec, training := true }

/-- A concrete `SemanticBinaryClassifier` with all-zero parameters and
`n_conv_layers = 0` (out of the documented `[1-4]` range from below). -/
def witnessSBC0 : SemanticBinaryClassifier :=
  { witnessSBC5 with n_conv_layers := 0 }

/-- The all-one embedding matrix. -/
def oneMatF (q d : ℕ) : MatF q d := fun _ _ => 1

/-- The hard sigmoid maps every real into `[0, 1]`. -/
theorem Hardsigmoid_mem01 (x : ℝ) : 0 ≤ Hardsigmoid.forward x ∧ Hardsigmoid.forward x ≤ 1 := by
  unfold Hardsigmoid.forward hardtanh
  constructor
  · have h : (-1 : ℝ) ≤ min 1 (max (-1) x) := le_min (by norm_num) (le_max_left _ _)
    linarith
  · have h : min 1 (max (-1) x) ≤ 1 := min_le_left _ _
    linarith

/-- `torch.round` of a value in `[0, 1]` is 0 or 1. -/
theorem torch_round_of_mem01 (x : ℝ) (h0 : 0 ≤ x) (h1 : x ≤ 1) :
    torch_round x = 0 ∨ torch_round x = 1 := by
  rcases lt_or_eq_of_le h1 with hlt | heq
  · have hf : (Int.floor x : ℤ) = 0 := Int.floor_eq_zero_iff.mpr (Set.mem_Ico.mpr ⟨h0, hlt⟩)
    unfold torch_round
    rw [hf]
    by_cases hc : x - ((0 : ℤ) : ℝ) < 1 / 2
    · left
      rw [if_pos hc]
      norm_num
    · by_cases hc2 : 1 / 2 < x - ((0 : ℤ) : ℝ)
      · right
        rw [if_neg hc, if_pos hc2]
        norm_num
      · left
        rw [if_neg hc, if_neg hc2, if_pos even_zero]
        norm_num
  · subst heq
    right
    unfold torch_round
    rw [Int.floor_one]
    norm_num

/-- `torch.bernoulli` samples are 0 or 1. -/
theorem torch_bernoulli_mem (u p : ℝ) : torch_bernoulli u p = 0 ∨ torch_bernoulli u p = 1 := by
  unfold torch_bernoulli
  by_cases h : u < p
  · right
    rw [if_pos h]
  · left
    rw [if_neg h]

/-- Every element produced by `DeterministicBinaryActivation.forward` is 0
or 1 (shared helper). -/
theorem deterministic_forward_mem (est : EstimatorPolicy) (input : BinActInput) (a b c d : ℕ) :
    DeterministicBinaryActivation.forward est input a b c d = 0 ∨
      DeterministicBinaryActivation.forward est input a b c d = 1 := by
  cases est
  · exact torch_round_of_mem01 _ (Hardsigmoid_mem01 _).1 (Hardsigmoid_mem01 _).2
  · exact torch_round_of_mem01 _ (Hardsigmoid_mem01 _).1 (Hardsigmoid_mem01 _).2

/-- Every element produced by `StochasticBinaryActivation.forward` is 0 or 1
(shared helper). -/
theorem stochastic_forward_mem (est : EstimatorPolicy) (u : T4) (input : BinActInput)
    (a b c d : ℕ) :
    StochasticBinaryActivation.forward est u input a b c d = 0 ∨
      StochasticBinaryActivation.forward est u input a b c d = 1 := by
  cases est
  · exact torch_bernoulli_mem _ _
  · exact torch_bernoulli_mem _ _

/-- C4: for every real-valued input tensor and slope (any `BinActInput`, both
the `[x, slope]` pair form and the single-tensor form), every element of the
output of `DeterministicBinaryActivation.forward` (round of
`Hardsigmoid(slope*x)`) and of `StochasticBinaryActivation.forward` (Bernoulli
sample of `Hardsigmoid(slope*x)`, for any uniform draws `u`) is exactly 0 or
1, for both the straight-through and the reinforce estimator variants. -/
theorem claim_C4_binary_outputs (est : EstimatorPolicy) (input : BinActInput) (u : T4)
    (a b c d : ℕ) :
    (DeterministicBinaryActivation.forward est input a b c d = 0 ∨
      DeterministicBinaryActivation.forward est input a b c d = 1) ∧
    (StochasticBinaryActivation.forward est u input a b c d = 0 ∨
      StochasticBinaryActivation.forward est u input a b c d = 1) :=
  ⟨deterministic_forward_mem est input a b c d, stochastic_forward_mem est u input a b c d⟩

/-- C5: for the straight-through estimators `RoundFunctionST` and
`BernoulliFunctionST`, the registered backward function is the identity: for
every incoming output-gradient tensor it returns the tensor unchanged
element-wise, regardless of the forward operation. -/
theorem claim_C5_st_backward_identity (u grad_output : T4) (a b c d : ℕ) :
    RoundFunctionST.bwd grad_output a b c d = grad_output a b c d ∧
    (BernoulliFunctionST u).bwd grad_output a b c d = grad_output a b c d :=
  ⟨rfl, rfl⟩

/-- C7: `binary_space_decoder` has two required parameters yet
`SemanticBinaryAutoEncoder.forward` invokes it with a single argument, so for
every input the second decode path fails with the missing-argument error
instead of silently defaulting the noise count. -/
theorem claim_C7_missing_argument :
    SemanticBinaryAutoEncoder.binary_space_decoder_required_params = 2 ∧
    SemanticBinaryAutoEncoder.binary_space_decoder_forward_call_args = 1 ∧
    SemanticBinaryAutoEncoder.binary_space_decoder_forward_call_args <
      SemanticBinaryAutoEncoder.binary_space_decoder_required_params ∧
    ∀ (m : SemanticBinaryAutoEncoder) (B H W : ℕ) (u x : T4),
      SemanticBinaryAutoEncoder.forward m B H W u x =
        Except.error "TypeError: binary_space_decoder() missing 1 required positional argument: n_noise" :=
  ⟨rfl, rfl, by decide, fun m B H W u x => rfl⟩

/-- C9: at the fixed 28x28 single-channel input resolution, the hard-coded
dense-layer input width of `SemanticBinaryClassifier` agrees with the
documented value and with the shape arithmetic of the conv blocks for each
supported depth (12544, 3136, 576, 64 for 1-4 blocks), and a `[4, 1, 28, 28]`
batch through `get_few_shot_encoder` flattens to width 64 per example. -/
theorem claim_C9_flattened_widths :
    (SemanticBinaryClassifier.dense_in_features 1 = 12544 ∧
      flatWidth (conv_block_outShape (1, 28, 28)) = 12544) ∧
    (SemanticBinaryClassifier.dense_in_features 2 = 3136 ∧
      flatWidth (conv_block_outShape (conv_block_outShape (1, 28, 28))) = 3136) ∧
    (SemanticBinaryClassifier.dense_in_features 3 = 576 ∧
      flatWidth (conv_block_outShape (conv_block_outShape (conv_block_outShape (1, 28, 28)))) =
        576) ∧
    (SemanticBinaryClassifier.dense_in_features 4 = 64 ∧
      flatWidth (conv_block_outShape (conv_block_outShape (conv_block_outShape
        (conv_block_outShape (1, 28, 28))))) = 64) ∧
    get_few_shot_encoder_flatWidth (1, 28, 28) = 64 := by
  decide

/-- C3: `AttentionLSTM.forward(support, queries)` returns the descriptive
dimension-mismatch value error exactly when the last-dimension sizes of
support (`ds`) and queries (`d`) differ — the check is the first thing the
forward pass does and depends on nothing but the two sizes — and when the
sizes match it returns an ordinary result instead. -/
theorem claim_C3_dimension_check (n ds q d : ℕ) (m : AttentionLSTM d)
    (support : MatF n ds) (queries : MatF q d) :
    ((AttentionLSTM.forward m support queries =
        Except.error "Support and query set have different embedding dimension!") ↔ ds ≠ d) ∧
    (ds = d → ∃ y, AttentionLSTM.forward m support queries = Except.ok y) := by
  constructor
  · constructor
    · intro he hd
      rw [AttentionLSTM.forward, dif_pos hd] at he
      exact Except.noConfusion he
    · intro hd
      rw [AttentionLSTM.forward, dif_neg hd]
  · intro hd
    rw [AttentionLSTM.forward, dif_pos hd]
    exact ⟨_, rfl⟩

/-- Witness for C3 at a concrete matching instance: embedding size 1 on both
sides, so no error is raised. -/
theorem claim_C3_witness :
    1 = 1 ∧ ∃ y, AttentionLSTM.forward witnessALSTM (zeroMatF 1 1) (zeroMatF 1 1) =
      Except.ok y :=
  ⟨rfl, (claim_C3_dimension_check 1 1 1 1 witnessALSTM (zeroMatF 1 1) (zeroMatF 1 1)).2 rfl⟩

/-- C8: for every input batch (and any uniform draws `u` for the stochastic
binarizer), `SemanticBinaryAutoEncoder.encoder` applies its 2 conv blocks,
feeds the result to the two parallel dense projections, and returns the pair
of the binary code produced by the binarization module on the `dense_bin`
projection and the continuous code produced by rectified-linear activation of
the `dense_cont` projection; every element of the binary code is 0 or 1 and
every element of the continuous code is non-negative. -/
theorem claim_C8_encoder_structure (m : SemanticBinaryAutoEncoder) (B H W : ℕ) (u x : T4) :
    (SemanticBinaryAutoEncoder.encoder m B H W u x =
      (let conv_out := conv_block 64 B (conv_block_outDim H) (conv_block_outDim W) m.training
        m.conv2 (conv_block m.num_input_channels B H W m.training m.conv1 x)
      ((if m.stochastic then
          StochasticBinaryActivation.forward EstimatorPolicy.ST u
            (BinActInput.single (linearLast conv_out m.dense_bin_weight m.dense_bin_bias 3136))
        else
          DeterministicBinaryActivation.forward EstimatorPolicy.ST
            (BinActInput.single (linearLast conv_out m.dense_bin_weight m.dense_bin_bias 3136))),
        relu (linearLast conv_out m.dense_cont_weight m.dense_cont_bias 3136)))) ∧
    (∀ a b c d : ℕ,
      ((SemanticBinaryAutoEncoder.encoder m B H W u x).1 a b c d = 0 ∨
        (SemanticBinaryAutoEncoder.encoder m B H W u x).1 a b c d = 1) ∧
      0 ≤ (SemanticBinaryAutoEncoder.encoder m B H W u x).2 a b c d) := by
  refine ⟨rfl, fun a b c d => ⟨?_, le_max_right _ _⟩⟩
  by_cases hs : m.stochastic
  · have h1 : (SemanticBinaryAutoEncoder.encoder m B H W u x).1 =
        StochasticBinaryActivation.forward EstimatorPolicy.ST u
          (BinActInput.single (linearLast
            (conv_block 64 B (conv_block_outDim H) (conv_block_outDim W) m.training m.conv2
              (conv_block m.num_input_channels B H W m.training m.conv1 x))
            m.dense_bin_weight m.dense_bin_bias 3136)) := by
      simp [SemanticBinaryAutoEncoder.encoder, hs]
    rw [h1]
    exact stochastic_forward_mem EstimatorPolicy.ST u _ a b c d
  · have h1 : (SemanticBinaryAutoEncoder.encoder m B H W u x).1 =
        DeterministicBinaryActivation.forward EstimatorPolicy.ST
          (BinActInput.single (linearLast
            (conv_block 64 B (conv_block_outDim H) (conv_block_outDim W) m.training m.conv2
              (conv_block m.num_input_channels B H W m.training m.conv1 x))
            m.dense_bin_weight m.dense_bin_bias 3136)) := by
      simp [SemanticBinaryAutoEncoder.encoder, hs]
    rw [h1]
    exact deterministic_forward_mem EstimatorPolicy.ST _ a b c d

/-- C10: `SemanticBinaryClassifier` never validates `n_conv_layers`: every
depth `>= 4` builds and runs exactly like depth 4 (all four blocks, dense
input width 64), and every depth `<= 1` — including 0 and negatives — builds
and runs exactly like depth 1, the first conv block being unconditional. -/
theorem claim_C10_depth_clamping (m : SemanticBinaryClassifier) :
    (4 ≤ m.n_conv_layers →
      SemanticBinaryClassifier.dense_in_features m.n_conv_layers =
        SemanticBinaryClassifier.dense_in_features 4 ∧
      SemanticBinaryClassifier.buildsConv2 m.n_conv_layers =
        SemanticBinaryClassifier.buildsConv2 4 ∧
      SemanticBinaryClassifier.buildsConv3 m.n_conv_layers =
        SemanticBinaryClassifier.buildsConv3 4 ∧
      SemanticBinaryClassifier.buildsConv4 m.n_conv_layers =
        SemanticBinaryClassifier.buildsConv4 4 ∧
      ∀ (B H W : ℕ) (u x : T4),
        SemanticBinaryClassifier.forward m B H W u x =
          SemanticBinaryClassifier.forward (m.setNConv 4) B H W u x) ∧
    (m.n_conv_layers ≤ 1 →
      SemanticBinaryClassifier.dense_in_features m.n_conv_layers =
        SemanticBinaryClassifier.dense_in_features 1 ∧
      SemanticBinaryClassifier.buildsConv2 m.n_conv_layers =
        SemanticBinaryClassifier.buildsConv2 1 ∧
      SemanticBinaryClassifier.buildsConv3 m.n_conv_layers =
        SemanticBinaryClassifier.buildsConv3 1 ∧
      SemanticBinaryClassifier.buildsConv4 m.n_conv_layers =
        SemanticBinaryClassifier.buildsConv4 1 ∧
      ∀ (B H W : ℕ) (u x : T4),
        SemanticBinaryClassifier.forward m B H W u x =
          SemanticBinaryClassifier.forward (m.setNConv 1) B H W u x) := by
  constructor
  · intro h
    have h2 : (2 : ℤ) ≤ m.n_conv_layers := by omega
    have h3 : (3 : ℤ) ≤ m.n_conv_layers := by omega
    have r2 : (2 : ℤ) ≤ 4 := by norm_num
    have r3 : (3 : ℤ) ≤ 4 := by norm_num
    have r4 : (4 : ℤ) ≤ 4 := by norm_num
    refine ⟨?_, ?_, ?_, ?_, fun B H W u x => ?_⟩
    · simp [SemanticBinaryClassifier.dense_in_features, h, r4]
    · simp only [SemanticBinaryClassifier.buildsConv2, decide_eq_decide]
      omega
    · simp only [SemanticBinaryClassifier.buildsConv3, decide_eq_decide]
      omega
    · simp only [SemanticBinaryClassifier.buildsConv4, decide_eq_decide]
      omega
    · simp [SemanticBinaryClassifier.forward, SemanticBinaryClassifier.setNConv,
        SemanticBinaryClassifier.dense_in_features, h, h2, h3, r2, r3, r4]
  · intro h
    have n2 : ¬ (2 : ℤ) ≤ m.n_conv_layers := by omega
    have n3 : ¬ (3 : ℤ) ≤ m.n_conv_layers := by omega
    have n4 : ¬ (4 : ℤ) ≤ m.n_conv_layers := by omega
    have s2 : ¬ (2 : ℤ) ≤ 1 := by norm_num
    have s3 : ¬ (3 : ℤ) ≤ 1 := by norm_num
    have s4 : ¬ (4 : ℤ) ≤ 1 := by norm_num
    refine ⟨?_, ?_, ?_, ?_, fun B H W u x => ?_⟩
    · simp [SemanticBinaryClassifier.dense_in_features, n2, n3, n4, s2, s3, s4]
    · simp only [SemanticBinaryClassifier.buildsConv2, decide_eq_decide]
      omega
    · simp only [SemanticBinaryClassifier.buildsConv3, decide_eq_decide]
      omega
    · simp only [SemanticBinaryClassifier.buildsConv4, decide_eq_decide]
      omega
    · simp [SemanticBinaryClassifier.forward, SemanticBinaryClassifier.setNConv,
        SemanticBinaryClassifier.dense_in_features, n2, n3, n4, s2, s3, s4]

/-- Witness for C10 at concrete out-of-range depths: `n_conv_layers = 5`
behaves like 4 on the dense width, `n_conv_layers = 0` like 1. -/
theorem claim_C10_witness :
    ((4 : ℤ) ≤ witnessSBC5.n_conv_layers ∧
      SemanticBinaryClassifier.dense_in_features witnessSBC5.n_conv_layers =
        SemanticBinaryClassifier.dense_in_features 4) ∧
    (witnessSBC0.n_conv_layers ≤ (1 : ℤ) ∧
      SemanticBinaryClassifier.dense_in_features witnessSBC0.n_conv_layers =
        SemanticBinaryClassifier.dense_in_features 1) :=
  ⟨⟨by decide, ((claim_C10_depth_clamping witnessSBC5).1 (by decide)).1⟩,
    ⟨by decide, ((claim_C10_depth_clamping witnessSBC0).2 (by decide)).1⟩⟩

/-- C2: for every support set and query set of equal last-dimension size and
every non-negative number of unrolling steps, `AttentionLSTM.forward` computes
exactly the recurrence of the claim — zero-initialised `h_hat` and `c`, per
step `h = h_hat + queries`, dot-product attention scores softmax-normalised
over the support dimension, attention-weighted readout, one LSTM-cell update
with `queries` as input and `(h + readout, c)` as incoming state — and
returns `h_hat + queries`, a matrix of the query set's shape; and each query
row's attention weights sum to 1 whenever the support set is non-empty. -/
theorem claim_C2_attention_refinement (n q d : ℕ) (m : AttentionLSTM d)
    (support : MatF n d) (queries : MatF q d) :
    AttentionLSTM.forward m support queries =
      Except.ok (specAttentionResult m support queries) ∧
    (0 < n → ∀ (h : MatF q d) (i : Fin q),
      ∑ t, specAttentionWeights support h i t = 1) := by
  constructor
  · rw [AttentionLSTM.forward, dif_pos rfl]
    rfl
  · intro hn h i
    have hne : Nonempty (Fin n) := ⟨⟨0, hn⟩⟩
    have hD : 0 < ∑ r, Real.exp (∑ j, h i j * support r j) :=
      Finset.sum_pos (fun r _ => Real.exp_pos _) Finset.univ_nonempty
    simp only [specAttentionWeights]
    rw [← Finset.sum_div]
    exact div_self (ne_of_gt hD)

/-- Witness for C2 at a concrete instance: one support embedding, one query,
embedding size 1, all-zero support, all-one working embedding — the single
attention weight is 1. -/
theorem claim_C2_witness :
    0 < 1 ∧ ∑ t : Fin 1, specAttentionWeights (zeroMatF 1 1) (oneMatF 1 1) 0 t = 1 :=
  ⟨by decide,
    (claim_C2_attention_refinement 1 1 1 witnessALSTM (zeroMatF 1 1) (zeroMatF 1 1)).2
      (by decide) (oneMatF 1 1) 0⟩

/-- Shared helper: `FewShotClassifier.functional_forward` returns an ordinary
result exactly when every required key is present in the weight mapping. -/
theorem functional_forward_ok_iff (weights : String → Option T4) (B C0 H W : ℕ) (x : T4) :
    (∃ y, FewShotClassifier.functional_forward weights B C0 H W x = Except.ok y) ↔
      ∀ k ∈ functionalForwardRequiredKeys, (weights k).isSome := by
  rw [FewShotClassifier.functional_forward]
  simp only [functionalForwardRequiredKeys, List.mem_cons, List.not_mem_nil, or_false,
    forall_eq_or_imp, forall_eq, List.foldlM]
  cases h1 : weights (convKey 1 ".0.weight")
  · simp [req, h1, Except.instMonad, Except.bind, Except.map, Except.pure]
  ·
    cases h2 : weights (convKey 1 ".0.bias")
    · simp [req, h1, h2, Except.instMonad, Except.bind, Except.map, Except.pure]
    ·
      cases h3 : weights (convKey 2 ".0.weight")
      · simp [req, h1, h2, h3, Except.instMonad, Except.bind, Except.map, Except.pure]
      ·
        cases h4 : weights (convKey 2 ".0.bias")
        · simp [req, h1, h2, h3, h4, Except.instMonad, Except.bind, Except.map, Except.pure]
        ·
          cases h5 : weights (convKey 3 ".0.weight")
          · simp [req, h1, h2, h3, h4, h5, Except.instMonad, Except.bind, Except.map, Except.pure]
          ·
            cases h6 : weights (convKey 3 ".0.bias")
            · simp [req, h1, h2, h3, h4, h5, h6, Except.instMonad, Except.bind, Except.map, Except.pure]
            ·
              cases h7 : weights (convKey 4 ".0.weight")
              · simp [req, h1, h2, h3, h4, h5, h6, h7, Except.instMonad, Except.bind, Except.map, Except.pure]
              ·
                cases h8 : weights (convKey 4 ".0.bias")
                · simp [req, h1, h2, h3, h4, h5, h6, h7, h8, Except.instMonad, Except.bind, Except.map, Except.pure]
                ·
                  cases h9 : weights "logits.weight"
                  · simp [req, h1, h2, h3, h4, h5, h6, h7, h8, h9, Except.instMonad, Except.bind, Except.map, Except.pure]
                  ·
                    cases h10 : weights "logits.bias"
                    · simp [req, h1, h2, h3, h4, h5, h6, h7, h8, h9, h10, Except.instMonad, Except.bind, Except.map, Except.pure]
                    · simp [req, h1, h2, h3, h4, h5, h6, h7, h8, h9, h10, Except.instMonad, Except.bind, Except.map, Except.pure]

/-- C6: `FewShotClassifier.functional_forward` fails with a missing-key
condition exactly when the supplied mapping lacks one of the required conv
weight/bias keys or linear head keys; the batch-norm keys are optional, and
their absence yields an identity scale/shift (affine parameters `None`
behave as weight 1, bias 0) instead of a failure. -/
theorem claim_C6_missing_keys (weights : String → Option T4) (B C0 H W : ℕ) (x : T4) :
    ((∃ e, FewShotClassifier.functional_forward weights B C0 H W x = Except.error e) ↔
      ∃ k ∈ functionalForwardRequiredKeys, weights k = none) ∧
    (∀ (xb w : T4) (bi : TVec) (inC B2 H2 W2 : ℕ),
      functional_conv_block xb w bi none none inC B2 H2 W2 =
        functional_conv_block xb w bi (some (fun _ => 1)) (some (fun _ => 0)) inC B2 H2 W2) := by
  refine ⟨?_, fun xb w bi inC B2 H2 W2 => rfl⟩
  have hok := functional_forward_ok_iff weights B C0 H W x
  constructor
  · rintro ⟨e, he⟩
    by_contra hmiss
    push_neg at hmiss
    have hall : ∀ k ∈ functionalForwardRequiredKeys, (weights k).isSome := by
      intro k hk
      exact Option.isSome_iff_ne_none.mpr (hmiss k hk)
    obtain ⟨y, hy⟩ := hok.mpr hall
    rw [he] at hy
    exact Except.noConfusion hy
  · rintro ⟨k, hk, hnone⟩
    cases hff : FewShotClassifier.functional_forward weights B C0 H W x with
    | error e => exact ⟨e, rfl⟩
    | ok y =>
      have hsome := hok.mp ⟨y, hff⟩ k hk
      rw [hnone] at hsome
      simp at hsome

/-- C1: for every input batch, `FewShotClassifier.functional_forward` with the
classifier's own current parameters repackaged as the named weight mapping
produces exactly the output of the training-mode standard forward pass — the
functional path always uses current-batch batch-norm statistics and ignores
the module's mode and running buffers — and hence equals
`FewShotClassifier.forward(x)` whenever the module is in training mode.  The
hypothesis ties `final_layer_size` to the flattened width of the input shape,
PyTorch's shape precondition for the linear head. -/
theorem claim_C1_functional_forward_equiv (m : FewShotClassifier) (B H W : ℕ) (x : T4)
    (hF : m.final_layer_size =
      64 * (conv_block_outDim (conv_block_outDim (conv_block_outDim (conv_block_outDim H))) *
        conv_block_outDim (conv_block_outDim (conv_block_outDim (conv_block_outDim W))))) :
    FewShotClassifier.functional_forward m.namedParams B m.num_input_channels H W x =
      Except.ok (FewShotClassifier.forward (m.setTraining true) B H W x) ∧
    (m.training = true →
      FewShotClassifier.functional_forward m.namedParams B m.num_input_channels H W x =
        Except.ok (FewShotClassifier.forward m B H W x)) := by
  have hm : FewShotClassifier.setTraining m true =
      ⟨m.num_input_channels, m.k_way,
        64 * (conv_block_outDim (conv_block_outDim (conv_block_outDim (conv_block_outDim H))) *
          conv_block_outDim (conv_block_outDim (conv_block_outDim (conv_block_outDim W)))),
        m.conv1, m.conv2, m.conv3, m.conv4, m.logits_weight, m.logits_bias, true⟩ := by
    rw [← hF]
    rfl
  have h1 : FewShotClassifier.functional_forward m.namedParams B m.num_input_channels H W x =
      Except.ok (FewShotClassifier.forward (m.setTraining true) B H W x) := by
    rw [hm]
    rfl
  refine ⟨h1, fun ht => ?_⟩
  have hid : FewShotClassifier.setTraining m true = m := by
    cases m
    subst ht
    rfl
  rw [hid] at h1
  exact h1

/-- Witness for C1: the concrete all-zero classifier on a `[1, 1, 16, 16]`
zero batch (flattened width `64 * 1 * 1 = 64 = final_layer_size`). -/
theorem claim_C1_witness :
    witnessFSC.final_layer_size =
      64 * (conv_block_outDim (conv_block_outDim (conv_block_outDim (conv_block_outDim 16))) *
        conv_block_outDim (conv_block_outDim (conv_block_outDim (conv_block_outDim 16)))) ∧
    (FewShotClassifier.functional_forward witnessFSC.namedParams 1
        witnessFSC.num_input_channels 16 16 zeroT4 =
      Except.ok (FewShotClassifier.forward (witnessFSC.setTraining true) 1 16 16 zeroT4) ∧
    (witnessFSC.training = true →
      FewShotClassifier.functional_forward witnessFSC.namedParams 1
          witnessFSC.num_input_channels 16 16 zeroT4 =
        Except.ok (FewShotClassifier.forward witnessFSC 1 16 16 zeroT4))) :=
  ⟨by decide, claim_C1_functional_forward_equiv witnessFSC 1 16 16 zeroT4 (by decide)⟩
